import Mathlib

/-!
Shallow embedding of `src/contrib_counter/count_contribs.py`.

The program fetches GitHub contribution events over a GraphQL API, paginating
per one-year window, and renders a weekday-by-week heatmap.  Network responses
are modelled as explicit input data (a list of `ApiResponse` values for one
fetch loop, a schedule of such lists for the multi-year driver); an uncaught
Python exception is modelled as `none` / an `Except.error` result.
-/

namespace ContribCounter

/-! ## get_contributions_query (count_contribs.py lines 11-87)

The Python function builds one f-string in which the same `after_clause`
value is spliced directly after each of the five `(first: 100` pagination
arguments.  The string is reproduced verbatim; literal braces are written
with `\x7b` and `\x7d` escapes. -/

/-- Python: `after_clause = f', after: "{cursor}"' if cursor else ""`.
`None` and the empty string are both falsy in Python. -/
def after_clause : Option String → String
  | none => ""
  | some c => if c = "" then "" else ", after: \"" ++ c ++ "\""

/-- The query text up to (and excluding) the commit sub-collection's
pagination argument. -/
def q_head (username from_date : String) : String :=
  "\n    \x7b\n      user(login: \"" ++ username ++ "\") \x7b\n        contributionsCollection(from: \"" ++ from_date ++ "T00:00:00Z\") \x7b\n          commitContributionsByRepository(maxRepositories: 100) \x7b\n            contributions"

/-- The pagination argument shared by all five sub-collections. -/
def q_first : String := "(first: 100"

/-- Query text between the commit pagination argument and the issue
sub-collection's pagination argument. -/
def q_body1 : String :=
  ") \x7b\n              nodes \x7b\n                occurredAt\n              \x7d\n              pageInfo \x7b\n                hasNextPage\n                endCursor\n              \x7d\n            \x7d\n          \x7d\n          issueContributions"

/-- Query text between the issue pagination argument and the pull-request
sub-collection's pagination argument. -/
def q_body2 : String :=
  ") \x7b\n            nodes \x7b\n              occurredAt\n            \x7d\n            pageInfo \x7b\n              hasNextPage\n              endCursor\n            \x7d\n          \x7d\n          pullRequestContributions"

/-- Query text between the pull-request pagination argument and the
pull-request-review sub-collection's pagination argument. -/
def q_body3 : String :=
  ") \x7b\n            nodes \x7b\n              occurredAt\n            \x7d\n            pageInfo \x7b\n              hasNextPage\n              endCursor\n            \x7d\n          \x7d\n          pullRequestReviewContributions"

/-- Query text between the pull-request-review pagination argument and the
repository-creation sub-collection's pagination argument. -/
def q_body4 : String :=
  ") \x7b\n            nodes \x7b\n              occurredAt\n            \x7d\n            pageInfo \x7b\n              hasNextPage\n              endCursor\n            \x7d\n          \x7d\n          repositoryContributions"

/-- Query text after the repository-creation pagination argument: the last
nodes/pageInfo block, the restricted-contribution count and the calendar. -/
def q_tail : String :=
  ") \x7b\n            nodes \x7b\n              occurredAt\n            \x7d\n            pageInfo \x7b\n              hasNextPage\n              endCursor\n            \x7d\n          \x7d\n          restrictedContributionsCount  # Includes restricted contributions (e.g., private contributions)\n          contributionCalendar \x7b\n            totalContributions\n            weeks \x7b\n              contributionDays \x7b\n                contributionCount\n                date\n              \x7d\n            \x7d\n          \x7d\n        \x7d\n      \x7d\n    \x7d\n    "

/-- count_contribs.py lines 11-87: the f-string with `after_clause` spliced
after each of the five `(first: 100` arguments. -/
def get_contributions_query (username from_date : String) (cursor : Option String) : String :=
  let ac := after_clause cursor
  q_head username from_date ++ q_first ++ ac ++ q_body1 ++ q_first ++ ac ++ q_body2
    ++ q_first ++ ac ++ q_body3 ++ q_first ++ ac ++ q_body4 ++ q_first ++ ac ++ q_tail

/-- Whether `pat` is an initial segment of `s` (character lists). -/
def matches_at : List Char → List Char → Bool
  | [], _ => true
  | _ :: _, [] => false
  | p :: ps, c :: cs => p == c && matches_at ps cs

/-- Number of positions of `s` at which `pat` occurs. -/
def count_occurrences (pat : List Char) : List Char → Nat
  | [] => 0
  | c :: rest => (if matches_at pat (c :: rest) then 1 else 0) + count_occurrences pat rest

/-! ## Response data model

Shape of the `data.user.contributionsCollection` JSON object requested by the
query above, plus the `errors` alternative checked at line 113. -/

/-- One node of a contribution connection: `{ occurredAt }`. -/
structure ContributionNode where
  occurredAt : String
deriving DecidableEq, Repr

/-- A `pageInfo` object: `{ hasNextPage, endCursor }`. -/
structure PageInfo where
  hasNextPage : Bool
  endCursor : String
deriving DecidableEq, Repr

/-- A `{ nodes, pageInfo }` connection object. -/
structure NodeConnection where
  nodes : List ContributionNode
  pageInfo : PageInfo
deriving DecidableEq, Repr

/-- One element of `commitContributionsByRepository`: `{ contributions }`. -/
structure RepoContributions where
  contributions : NodeConnection
deriving DecidableEq, Repr

/-- One `{ contributionCount, date }` day of the calendar summary. -/
structure ContributionDay where
  contributionCount : Nat
  date : String
deriving DecidableEq, Repr

/-- One `{ contributionDays }` week of the calendar summary. -/
structure ContributionWeek where
  contributionDays : List ContributionDay
deriving DecidableEq, Repr

/-- The `contributionCalendar` summary object. -/
structure ContributionCalendar where
  totalContributions : Nat
  weeks : List ContributionWeek
deriving DecidableEq, Repr

/-- The `contributionsCollection` object of one response. -/
structure ContributionsCollection where
  commitContributionsByRepository : List RepoContributions
  issueContributions : NodeConnection
  pullRequestContributions : NodeConnection
  pullRequestReviewContributions : NodeConnection
  repositoryContributions : NodeConnection
  restrictedContributionsCount : Nat
  contributionCalendar : ContributionCalendar
deriving DecidableEq, Repr

/-- A parsed response body: either it contains an `errors` field, or the
`data.user.contributionsCollection` payload. -/
inductive ApiResponse where
  | errors (messages : List String)
  | data (collection : ContributionsCollection)
deriving DecidableEq, Repr

/-! ## extract_contributions (lines 130-148) and get_page_info (lines 151-166) -/

/-- count_contribs.py lines 130-148: list-extend over the commit repositories,
then the issue nodes, then the pull-request nodes.  The review and
repository-creation connections, the calendar and the restricted count are
not touched. -/
def extract_contributions (contributions_data : ContributionsCollection) : List ContributionNode :=
  let contributions : List ContributionNode := []
  let contributions := contributions_data.commitContributionsByRepository.foldl
    (fun acc repo_contrib => acc ++ repo_contrib.contributions.nodes) contributions
  let contributions := contributions ++ contributions_data.issueContributions.nodes
  contributions ++ contributions_data.pullRequestContributions.nodes

/-- count_contribs.py lines 151-166: reads
`commitContributionsByRepository[0]["contributions"]["pageInfo"]`.  The `[0]`
subscript is unguarded in Python; an empty list raises IndexError, modelled
as `none`. -/
def get_page_info (contributions_data : ContributionsCollection) : Option PageInfo :=
  match contributions_data.commitContributionsByRepository with
  | [] => none
  | repo0 :: _ =>
    some { hasNextPage := repo0.contributions.pageInfo.hasNextPage,
           endCursor := repo0.contributions.pageInfo.endCursor }

/-! ## fetch_contributions (lines 90-127)

The loop is driven by the sequence of response bodies the server returns to
its consecutive POST requests; that sequence is the `List ApiResponse`
argument.  The outcome records the cursor carried by each issued request and
the returned event list (`none` when the loop raises, or when it wants a
further response that the input list does not provide). -/

/-- Observable outcome of one run of the fetch loop. -/
structure FetchOutcome where
  requests : List (Option String)
  result : Option (List ContributionNode)
deriving DecidableEq, Repr

/-- One iteration per list element: on `errors` break with the events
accumulated so far; otherwise extend the accumulator, read the commit page
info, and continue with the commit `endCursor` exactly when `hasNextPage`. -/
def fetch_contributions_loop :
    Option String → List ContributionNode → List ApiResponse → FetchOutcome
  | cursor, _acc, [] => ⟨[cursor], none⟩
  | cursor, acc, response :: rest =>
    match response with
    | .errors _ => ⟨[cursor], some acc⟩
    | .data collection =>
      let acc := acc ++ extract_contributions collection
      match get_page_info collection with
      | none => ⟨[cursor], none⟩
      | some page_info =>
        if page_info.hasNextPage then
          let next := fetch_contributions_loop (some page_info.endCursor) acc rest
          ⟨cursor :: next.requests, next.result⟩
        else ⟨[cursor], some acc⟩

/-- count_contribs.py lines 90-127: the loop starts with `cursor = None` and
an empty accumulator. -/
def fetch_contributions (responses : List ApiResponse) : FetchOutcome :=
  fetch_contributions_loop none [] responses

/-! ## fetch_all_contributions (lines 169-190) -/

/-- A calendar date, as carried by a Python `datetime` parsed with
`strptime(\"%Y-%m-%d\")`. -/
structure Date where
  year : Nat
  month : Nat
  day : Nat
deriving DecidableEq, Repr

/-- Gregorian leap-year rule. -/
def isLeapYear (y : Nat) : Bool :=
  (y % 4 == 0 && y % 100 != 0) || y % 400 == 0

/-- Length of month `m` of year `y`. -/
def days_in_month (y m : Nat) : Nat :=
  if m = 2 then (if isLeapYear y then 29 else 28)
  else if m = 4 ∨ m = 6 ∨ m = 9 ∨ m = 11 then 30
  else 31

/-- Library semantics of `start_date.replace(year=new_year)` at line 185:
the day of month is validated against the new year's month length and an
invalid combination (Feb 29 moved to a non-leap year) raises ValueError,
modelled as `none`. -/
def replace_year (d : Date) (new_year : Nat) : Option Date :=
  if d.day ≤ days_in_month new_year d.month then some ⟨new_year, d.month, d.day⟩ else none

/-- Python `range(end_date.year - start_date.year)` at line 184; a
non-positive difference yields the empty range. -/
def year_offsets (start_date end_date : Date) : List Nat :=
  List.range ((end_date.year : Int) - (start_date.year : Int)).toNat

/-- Sequence a list of `replace_year` results; the first failure aborts the
whole computation, as the uncaught ValueError would. -/
def traverse_dates (f : Nat → Option Date) : List Nat → Option (List Date)
  | [] => some []
  | k :: ks => do
    let d ← f k
    let ds ← traverse_dates f ks
    pure (d :: ds)

/-- The window start dates computed by the loop at lines 184-185, in
iteration order. -/
def window_starts (start_date end_date : Date) : Option (List Date) :=
  traverse_dates (fun year_offset => replace_year start_date (start_date.year + year_offset))
    (year_offsets start_date end_date)

/-- The per-window fetches at lines 186-188, one `fetch_contributions` run
per window start date; `schedule` supplies the response sequence the server
returns for the window anchored at a given date.  A raising fetch aborts the
run (`none`); otherwise results are concatenated in window order. -/
def fetch_windows (schedule : Date → List ApiResponse) :
    List Date → Option (List ContributionNode)
  | [] => some []
  | w :: ws => do
    let events ← (fetch_contributions (schedule w)).result
    let rest ← fetch_windows schedule ws
    pure (events ++ rest)

/-- count_contribs.py lines 169-190. -/
def fetch_all_contributions (schedule : Date → List ApiResponse)
    (start_date end_date : Date) : Option (List ContributionNode) := do
  let ws ← window_starts start_date end_date
  fetch_windows schedule ws

/-- count_contribs.py lines 193-202: project each contribution to its
`occurredAt` timestamp. -/
def process_contributions (contributions_data : List ContributionNode) : List String :=
  contributions_data.map (fun contribution => contribution.occurredAt)

/-! ## generate_plotly_heatmap (lines 205-262): the grid computation

`pd.to_datetime` parses the ISO-8601 `Z` timestamps; `groupby(\"date\")`
groups by the full timestamp value (not the calendar date) with sorted keys;
`weekday`, `isocalendar().week` and `year` columns are added; weekend rows
are dropped; `pivot_table` uses its default `mean` aggregation with
`fill_value=0`; finally every cell is capped at 10. -/

/-- An instant as parsed by `pd.to_datetime(..., utc=True)` from a
`YYYY-MM-DDTHH:MM:SSZ` string. -/
structure DateTime where
  year : Nat
  month : Nat
  day : Nat
  hour : Nat
  minute : Nat
  second : Nat
deriving DecidableEq, Repr

/-- Value of a decimal digit character. -/
def digitVal (c : Char) : Option Nat :=
  if c.isDigit then some (c.toNat - 48) else none

/-- Value of a two-digit decimal field. -/
def two_digits (c1 c2 : Char) : Option Nat := do
  let a ← digitVal c1
  let b ← digitVal c2
  pure (a * 10 + b)

/-- Library semantics of `pd.to_datetime` on one `YYYY-MM-DDTHH:MM:SSZ`
string: positional digits, with calendar and clock ranges validated;
anything else raises, modelled as `none`. -/
def parse_ts (s : String) : Option DateTime :=
  match s.data with
  | [y1, y2, y3, y4, '-', mo1, mo2, '-', d1, d2, 'T',
     h1, h2, ':', mi1, mi2, ':', s1, s2, 'Z'] => do
    let yh ← two_digits y1 y2
    let yl ← two_digits y3 y4
    let mo ← two_digits mo1 mo2
    let d ← two_digits d1 d2
    let h ← two_digits h1 h2
    let mi ← two_digits mi1 mi2
    let sec ← two_digits s1 s2
    let y := yh * 100 + yl
    if 1 ≤ mo ∧ mo ≤ 12 ∧ 1 ≤ d ∧ d ≤ days_in_month y mo ∧ h < 24 ∧ mi < 60 ∧ sec < 60 then
      some ⟨y, mo, d, h, mi, sec⟩
    else none
  | _ => none

/-- Days of year `y` strictly before month `m`. -/
def days_before_month (y m : Nat) : Nat :=
  (List.range (m - 1)).foldl (fun acc i => acc + days_in_month y (i + 1)) 0

/-- One-based ordinal of the day within its year. -/
def day_of_year (y m d : Nat) : Nat := days_before_month y m + d

/-- Days in the proleptic Gregorian calendar strictly before year `y`. -/
def days_before_year (y : Nat) : Nat :=
  365 * (y - 1) + (y - 1) / 4 - (y - 1) / 100 + (y - 1) / 400

/-- Proleptic Gregorian ordinal; January 1 of year 1 is day 1. -/
def to_ordinal (y m d : Nat) : Nat := days_before_year y + day_of_year y m d

/-- Library semantics of the pandas `weekday` accessor: Monday is 0 and
January 1 of year 1 is a Monday. -/
def weekday_of (y m d : Nat) : Nat := (to_ordinal y m d + 6) % 7

/-- Number of ISO weeks (52 or 53) in ISO year `y`. -/
def iso_week_count (y : Nat) : Nat :=
  let p := fun (n : Nat) => (n + n / 4 - n / 100 + n / 400) % 7
  if p y = 4 ∨ p (y - 1) = 3 then 53 else 52

/-- Library semantics of the pandas `isocalendar().week` accessor. -/
def iso_week (y m d : Nat) : Nat :=
  let doy := day_of_year y m d
  let iso_wd := weekday_of y m d + 1
  let w := (doy + 10 - iso_wd) / 7
  if w < 1 then iso_week_count (y - 1)
  else if iso_week_count y < w then 1
  else w

/-- Total-seconds key giving the chronological order of instants. -/
def dt_key (t : DateTime) : Nat :=
  (to_ordinal t.year t.month t.day * 24 + t.hour) * 3600 + t.minute * 60 + t.second

/-- Insert into a list sorted by `dt_key`. -/
def insert_sorted (x : DateTime) : List DateTime → List DateTime
  | [] => [x]
  | y :: ys => if dt_key x ≤ dt_key y then x :: y :: ys else y :: insert_sorted x ys

/-- Sort by `dt_key` ascending (the sorted group keys of pandas groupby). -/
def sort_dts : List DateTime → List DateTime
  | [] => []
  | x :: xs => insert_sorted x (sort_dts xs)

/-- Line 217, `df.groupby(\"date\").sum()`: one row per distinct timestamp
value, keys sorted ascending, each with the number of input occurrences of
that exact timestamp. -/
def group_counts (ts : List DateTime) : List (DateTime × Nat) :=
  (sort_dts ts.dedup).map (fun t => (t, ts.count t))

/-- One row of the grouped DataFrame after lines 217-221: the timestamp, its
count and the derived `weekday`, `week` and `year` columns. -/
structure HeatRow where
  date : DateTime
  count : Nat
  weekday : Nat
  week : Nat
  year : Nat
deriving DecidableEq, Repr

/-- Parse every timestamp; a single malformed string raises
(`pd.to_datetime` at line 212), modelled as `none`. -/
def parse_all : List String → Option (List DateTime)
  | [] => some []
  | s :: rest => do
    let t ← parse_ts s
    let ts ← parse_all rest
    pure (t :: ts)

/-- The DataFrame rows after lines 212-221. -/
def heat_rows (dates : List String) : Option (List HeatRow) := do
  let ts ← parse_all dates
  pure ((group_counts ts).map (fun g =>
    { date := g.1, count := g.2,
      weekday := weekday_of g.1.year g.1.month g.1.day,
      week := iso_week g.1.year g.1.month g.1.day,
      year := g.1.year }))

/-- Lines 223-225: `df = df[df[\"weekday\"] < 5]`. -/
def filtered_rows (dates : List String) : Option (List HeatRow) :=
  (heat_rows dates).map (fun rows => rows.filter (fun row => decide (row.weekday < 5)))

/-- Lines 228-230: one `pivot_table` cell, indexed by weekday and the
`(year, week)` column pair.  `pivot_table` aggregates with its default
`mean`; a combination with no source row holds `fill_value = 0`. -/
def heatmap_cell (dates : List String) (wd yr wk : Nat) : Option ℚ :=
  (filtered_rows dates).map (fun rows =>
    let sel := rows.filter (fun row => row.weekday == wd && row.year == yr && row.week == wk)
    if sel.isEmpty then 0
    else mkRat ((sel.map (fun row => (row.count : Int))).sum) sel.length)

/-- The distinct weekday values present in the filtered data: the row index
of the pivoted DataFrame. -/
def pivot_index (dates : List String) : Option (List Nat) :=
  (filtered_rows dates).map (fun rows => (rows.map (fun row => row.weekday)).dedup)

/-- Line 250, the cap lambda: `lambda x: min(x, 10)`. -/
def cap (x : ℚ) : ℚ := min x 10

/-- A capped cell of the rendered grid (line 250 applies `cap` elementwise
after pivoting). -/
def capped_heatmap_cell (dates : List String) (wd yr wk : Nat) : Option ℚ :=
  (heatmap_cell dates wd yr wk).map cap

/-- Control flow of `generate_plotly_heatmap` up to line 232: parsing may
raise inside `pd.to_datetime`; the assignment
`heatmap_data.index = [\"Monday\", ..., \"Friday\"]` raises a pandas length
mismatch unless the pivot index has exactly five entries, and only past that
point does the function go on to render and write the output file. -/
def generate_plotly_heatmap_run (dates : List String) : Except String Unit :=
  match pivot_index dates with
  | none => .error "to_datetime: parse failure"
  | some idx => if idx.length = 5 then .ok () else .error "Length mismatch"

/-- Modelled from the spec: `buildGrid` first "groups by exact date to get a
per-day count".  The per-day count of one calendar date, for comparison with
what the code computes. -/
def spec_per_day_count (dates : List String) (y m d : Nat) : Option Nat :=
  (parse_all dates).map (fun ts =>
    ts.countP (fun t => t.year == y && t.month == m && t.day == d))

/-! ## Concrete fixture data shared by witnesses -/

/-- An empty `{ nodes, pageInfo }` connection with no further page. -/
def empty_connection : NodeConnection := ⟨[], ⟨false, ""⟩⟩

/-- An empty calendar summary. -/
def empty_calendar : ContributionCalendar := ⟨0, []⟩

/-- A response collection whose commit sub-collection holds `nodes` and
reports no further page. -/
def final_page (nodes : List ContributionNode) : ContributionsCollection :=
  { commitContributionsByRepository := [⟨⟨nodes, ⟨false, ""⟩⟩⟩],
    issueContributions := empty_connection,
    pullRequestContributions := empty_connection,
    pullRequestReviewContributions := empty_connection,
    repositoryContributions := empty_connection,
    restrictedContributionsCount := 0,
    contributionCalendar := empty_calendar }

/-- A response collection whose commit sub-collection holds `nodes` and
reports a further page behind `cursor`. -/
def more_page (nodes : List ContributionNode) (cursor : String) : ContributionsCollection :=
  { commitContributionsByRepository := [⟨⟨nodes, ⟨true, cursor⟩⟩⟩],
    issueContributions := empty_connection,
    pullRequestContributions := empty_connection,
    pullRequestReviewContributions := empty_connection,
    repositoryContributions := empty_connection,
    restrictedContributionsCount := 0,
    contributionCalendar := empty_calendar }

/-- A response collection with an empty `commitContributionsByRepository`
list (and one issue event, which the loop accumulates before reading the
page info). -/
def empty_commit_page : ContributionsCollection :=
  { commitContributionsByRepository := [],
    issueContributions := ⟨[⟨"2020-01-06T09:00:00Z"⟩], ⟨false, ""⟩⟩,
    pullRequestContributions := empty_connection,
    pullRequestReviewContributions := empty_connection,
    repositoryContributions := empty_connection,
    restrictedContributionsCount := 0,
    contributionCalendar := empty_calendar }

/-- A collection carrying events in every sub-collection, a calendar and a
restricted count. -/
def rich_collection : ContributionsCollection :=
  { commitContributionsByRepository := [⟨⟨[⟨"2020-01-06T09:00:00Z"⟩], ⟨false, "C0"⟩⟩⟩],
    issueContributions := ⟨[⟨"2020-01-07T09:00:00Z"⟩], ⟨true, "C1"⟩⟩,
    pullRequestContributions := ⟨[⟨"2020-01-08T09:00:00Z"⟩], ⟨true, "C2"⟩⟩,
    pullRequestReviewContributions := ⟨[⟨"2020-01-09T09:00:00Z"⟩], ⟨true, "C3"⟩⟩,
    repositoryContributions := ⟨[⟨"2020-01-10T09:00:00Z"⟩], ⟨true, "C4"⟩⟩,
    restrictedContributionsCount := 7,
    contributionCalendar := ⟨42, [⟨[⟨3, "2020-01-06"⟩]⟩]⟩ }

/-- `rich_collection` with the review and repository-creation connections,
the calendar and the restricted count all blanked out. -/
def plain_collection : ContributionsCollection :=
  { commitContributionsByRepository := rich_collection.commitContributionsByRepository,
    issueContributions := rich_collection.issueContributions,
    pullRequestContributions := rich_collection.pullRequestContributions,
    pullRequestReviewContributions := empty_connection,
    repositoryContributions := empty_connection,
    restrictedContributionsCount := 0,
    contributionCalendar := empty_calendar }

/-! ## Helper lemmas -/

/-- A left fold that appends `f` of each element extends the accumulator by
the flattened map. -/
lemma foldl_append_flat_map {α β : Type} (f : α → List β) :
    ∀ (l : List α) (acc : List β),
      List.foldl (fun a r => a ++ f r) acc l = acc ++ l.flatMap f
  | [], acc => by simp
  | x :: xs, acc => by
    simp [List.foldl_cons, foldl_append_flat_map f xs (acc ++ f x), List.append_assoc]

/-- When every element maps to `some`, `traverse_dates` succeeds with the
pointwise images. -/
lemma traverse_dates_eq_map (f : Nat → Option Date) (g : Nat → Date) :
    ∀ l : List Nat, (∀ k ∈ l, f k = some (g k)) →
      traverse_dates f l = some (l.map g)
  | [], _ => rfl
  | x :: xs, h => by
    have hx := h x (List.mem_cons_self x xs)
    have hxs := traverse_dates_eq_map f g xs (fun k hk => h k (List.mem_cons_of_mem x hk))
    simp [traverse_dates, hx, hxs]

/-! ## Claim theorems -/

/-- C1: the pagination decision after each page is derived solely from the
commit-by-repository sub-collection's page info: `get_page_info` depends
only on that field, the loop issues another request (carrying the commit
`endCursor`) exactly when it reports `hasNextPage = true`, and for a
response sequence reporting `hasNextPage = true` then `false` exactly two
requests are issued and the events of both pages are concatenated in
order. -/
theorem c1_pagination_from_commit_page_info :
    (∀ c1 c2 : ContributionsCollection,
        c1.commitContributionsByRepository = c2.commitContributionsByRepository →
        get_page_info c1 = get_page_info c2)
  ∧ (∀ (cursor : Option String) (acc : List ContributionNode)
        (collection : ContributionsCollection) (page_info : PageInfo)
        (rest : List ApiResponse),
        get_page_info collection = some page_info →
        (page_info.hasNextPage = true →
          fetch_contributions_loop cursor acc (ApiResponse.data collection :: rest) =
            ⟨cursor :: (fetch_contributions_loop (some page_info.endCursor)
                (acc ++ extract_contributions collection) rest).requests,
              (fetch_contributions_loop (some page_info.endCursor)
                (acc ++ extract_contributions collection) rest).result⟩)
        ∧ (page_info.hasNextPage = false →
          fetch_contributions_loop cursor acc (ApiResponse.data collection :: rest) =
            ⟨[cursor], some (acc ++ extract_contributions collection)⟩))
  ∧ (∀ (c1 c2 : ContributionsCollection) (pi1 pi2 : PageInfo),
        get_page_info c1 = some pi1 → pi1.hasNextPage = true →
        get_page_info c2 = some pi2 → pi2.hasNextPage = false →
        fetch_contributions [ApiResponse.data c1, ApiResponse.data c2] =
          ⟨[none, some pi1.endCursor],
            some (extract_contributions c1 ++ extract_contributions c2)⟩) := by
  refine ⟨fun c1 c2 h => ?_, fun cursor acc collection page_info rest hpi => ?_, ?_⟩
  · simp only [get_page_info, h]
  · constructor
    · intro hnext
      simp [fetch_contributions_loop, hpi, hnext]
    · intro hlast
      simp [fetch_contributions_loop, hpi, hlast]
  · intro c1 c2 pi1 pi2 h1 hn1 h2 hn2
    simp [fetch_contributions, fetch_contributions_loop, h1, hn1, h2, hn2]

/-- Witness for C1: a concrete two-page exchange where the commit
sub-collection reports `hasNextPage = true` with cursor `CURSOR1` and then
`false`: two requests, the second carrying `CURSOR1`, and both pages'
events in order. -/
theorem c1_pagination_from_commit_page_info_witness :
    fetch_contributions
        [ApiResponse.data (more_page [⟨"2019-09-16T12:00:00Z"⟩] "CURSOR1"),
         ApiResponse.data (final_page [⟨"2019-09-17T12:00:00Z"⟩])] =
      ⟨[none, some "CURSOR1"],
        some [⟨"2019-09-16T12:00:00Z"⟩, ⟨"2019-09-17T12:00:00Z"⟩]⟩ :=
  c1_pagination_from_commit_page_info.2.2
    (more_page [⟨"2019-09-16T12:00:00Z"⟩] "CURSOR1")
    (final_page [⟨"2019-09-17T12:00:00Z"⟩])
    ⟨true, "CURSOR1"⟩ ⟨false, ""⟩ rfl rfl rfl rfl

/-- C4: a response body with an `errors` field does not raise: the loop
breaks, all events accumulated from earlier pages are returned, and at the
multi-year level events of earlier year windows are kept when a later
window's first response carries errors. -/
theorem c4_errors_halt_keep_events :
    (∀ (cursor : Option String) (acc : List ContributionNode) (messages : List String)
        (rest : List ApiResponse),
        fetch_contributions_loop cursor acc (ApiResponse.errors messages :: rest) =
          ⟨[cursor], some acc⟩)
  ∧ (∀ (schedule : Date → List ApiResponse) (start_date end_date w0 w1 : Date)
        (events0 : List ContributionNode) (messages : List String),
        window_starts start_date end_date = some [w0, w1] →
        (fetch_contributions (schedule w0)).result = some events0 →
        schedule w1 = [ApiResponse.errors messages] →
        fetch_all_contributions schedule start_date end_date = some events0) := by
  constructor
  · intro cursor acc messages rest
    rfl
  · intro schedule start_date end_date w0 w1 events0 messages hws h0 h1
    simp only [fetch_contributions] at h0
    simp [fetch_all_contributions, fetch_windows, fetch_contributions,
      fetch_contributions_loop, hws, h0, h1]

/-- Witness for C4: a two-window run whose second window immediately
returns an errors body keeps the first window's events. -/
theorem c4_errors_halt_keep_events_witness :
    fetch_all_contributions
        (fun d => if d.year = 2019
          then [ApiResponse.data (final_page [⟨"2019-09-16T12:00:00Z"⟩])]
          else [ApiResponse.errors ["API rate limit exceeded"]])
        ⟨2019, 9, 15⟩ ⟨2021, 1, 1⟩ =
      some [⟨"2019-09-16T12:00:00Z"⟩] :=
  c4_errors_halt_keep_events.2
    (fun d => if d.year = 2019
      then [ApiResponse.data (final_page [⟨"2019-09-16T12:00:00Z"⟩])]
      else [ApiResponse.errors ["API rate limit exceeded"]])
    ⟨2019, 9, 15⟩ ⟨2021, 1, 1⟩ ⟨2019, 9, 15⟩ ⟨2020, 9, 15⟩
    [⟨"2019-09-16T12:00:00Z"⟩] ["API rate limit exceeded"]
    (by decide) (by decide) (by decide)

/-- C5 counterexample: on a response whose body carries an `errors` field
the fetch does not fail at all: it returns normally (with the empty
accumulated list), so it does not fail with a ProtocolError. -/
theorem c5_counterexample :
    fetch_contributions [ApiResponse.errors ["bad credentials"]] = ⟨[none], some []⟩
    ∧ (fetch_contributions [ApiResponse.errors ["bad credentials"]]).result ≠ none := by
  exact ⟨rfl, by decide⟩

/-- C5 (amended): when the response body contains an `errors` field,
`fetch_contributions` does not fail: the loop prints the errors, breaks,
and returns the events accumulated so far, issuing no further request. -/
theorem c5_errors_return_normally :
    ∀ (cursor : Option String) (acc : List ContributionNode) (messages : List String)
      (rest : List ApiResponse),
      (fetch_contributions_loop cursor acc (ApiResponse.errors messages :: rest)).result
          = some acc
      ∧ (fetch_contributions_loop cursor acc (ApiResponse.errors messages :: rest)).requests
          = [cursor] :=
  fun _ _ _ _ => ⟨rfl, rfl⟩

/-- C7: `extract_contributions` returns exactly the commit-by-repository,
issue and pull-request event nodes, in that order, and its result is
independent of the review and repository-creation connections, the calendar
summary and the restricted count. -/
theorem c7_extract_only_commit_issue_pr :
    (∀ collection : ContributionsCollection,
        extract_contributions collection =
          collection.commitContributionsByRepository.flatMap
              (fun repo_contrib => repo_contrib.contributions.nodes)
            ++ collection.issueContributions.nodes
            ++ collection.pullRequestContributions.nodes)
  ∧ (∀ c1 c2 : ContributionsCollection,
        c1.commitContributionsByRepository = c2.commitContributionsByRepository →
        c1.issueContributions = c2.issueContributions →
        c1.pullRequestContributions = c2.pullRequestContributions →
        extract_contributions c1 = extract_contributions c2) := by
  have key : ∀ collection : ContributionsCollection,
      extract_contributions collection =
        collection.commitContributionsByRepository.flatMap
            (fun repo_contrib => repo_contrib.contributions.nodes)
          ++ collection.issueContributions.nodes
          ++ collection.pullRequestContributions.nodes := by
    intro collection
    simp [extract_contributions, foldl_append_flat_map]
  exact ⟨key, fun c1 c2 h1 h2 h3 => by rw [key, key, h1, h2, h3]⟩

/-- Witness for C7: blanking the review and repository-creation
connections, the calendar and the restricted count leaves the extracted
list unchanged. -/
theorem c7_extract_only_commit_issue_pr_witness :
    extract_contributions rich_collection = extract_contributions plain_collection :=
  c7_extract_only_commit_issue_pr.2 rich_collection plain_collection rfl rfl rfl

/-- C8: the cap applied to every grid cell is clamping to at most 10: it is
idempotent on every non-negative integer, never exceeds 10, and the values
10, 11 and 25 all map to the same capped value. -/
theorem c8_cap_clamps_at_ten :
    (∀ x : ℕ, cap (cap (x : ℚ)) = cap (x : ℚ))
  ∧ (∀ x : ℚ, cap x ≤ 10)
  ∧ cap 10 = cap 11 ∧ cap 11 = cap 25 ∧ cap 10 = 10 := by
  refine ⟨fun x => ?_, fun x => ?_, ?_, ?_, ?_⟩
  · simp [cap, min_assoc]
  · exact min_le_right x 10
  · norm_num [cap]
  · norm_num [cap]
  · norm_num [cap]

/-- C9: `get_page_info` reads only the first element of the
`commitContributionsByRepository` list, and on an empty list the unguarded
`[0]` access makes the fetch loop raise (modelled `none`) instead of
treating the collection as exhausted. -/
theorem c9_empty_commit_repo_list_raises :
    (∀ (collection : ContributionsCollection) (repo0 : RepoContributions)
        (rest : List RepoContributions),
        collection.commitContributionsByRepository = repo0 :: rest →
        get_page_info collection =
          some ⟨repo0.contributions.pageInfo.hasNextPage,
                repo0.contributions.pageInfo.endCursor⟩)
  ∧ (∀ collection : ContributionsCollection,
        collection.commitContributionsByRepository = [] →
        get_page_info collection = none
        ∧ ∀ (cursor : Option String) (acc : List ContributionNode)
            (rest : List ApiResponse),
            fetch_contributions_loop cursor acc (ApiResponse.data collection :: rest) =
              ⟨[cursor], none⟩) := by
  constructor
  · intro collection repo0 rest h
    simp only [get_page_info, h]
  · intro collection h
    have hpi : get_page_info collection = none := by simp only [get_page_info, h]
    refine ⟨hpi, fun cursor acc rest => ?_⟩
    simp [fetch_contributions_loop, hpi]

/-- Witness for C9: a concrete response with an empty commit repository
list makes `get_page_info` fail and the loop raise. -/
theorem c9_empty_commit_repo_list_raises_witness :
    get_page_info empty_commit_page = none
    ∧ fetch_contributions [ApiResponse.data empty_commit_page] = ⟨[none], none⟩ :=
  ⟨(c9_empty_commit_repo_list_raises.2 empty_commit_page rfl).1,
   (c9_empty_commit_repo_list_raises.2 empty_commit_page rfl).2 none [] []⟩

/-- C3 counterexample: for `start_date = 2020-02-29` and
`end_date = 2022-01-01` the claim fails: `start_date.replace(year=2021)`
raises ValueError (Feb 29 does not exist in 2021), so the run aborts
instead of invoking the per-year fetch `2022 - 2020 = 2` times. -/
theorem c3_counterexample :
    window_starts ⟨2020, 2, 29⟩ ⟨2022, 1, 1⟩ = none
    ∧ ¬ ∃ ws : List Date,
        window_starts ⟨2020, 2, 29⟩ ⟨2022, 1, 1⟩ = some ws
        ∧ (ws.length : Int) = (2022 : Int) - 2020 := by
  have h : window_starts ⟨2020, 2, 29⟩ ⟨2022, 1, 1⟩ = none := by decide
  refine ⟨h, ?_⟩
  rintro ⟨ws, hws, -⟩
  rw [h] at hws
  exact Option.noConfusion hws

/-- C3 (amended): provided `start_date.year ≤ end_date.year` and the start
date's month/day is a valid calendar date in every shifted year (otherwise
the year replacement raises ValueError), `fetch_all_contributions` invokes
the per-year fetch exactly `end_date.year - start_date.year` times, on
window start dates with the same month and day shifted by 0, 1, ... year
offsets in ascending order; when both dates fall in the same calendar year
it invokes zero fetches and returns the empty list. -/
theorem c3_window_count (start_date end_date : Date)
    (hle : start_date.year ≤ end_date.year)
    (hval : ∀ k, k < end_date.year - start_date.year →
      start_date.day ≤ days_in_month (start_date.year + k) start_date.month) :
    window_starts start_date end_date =
      some ((List.range (end_date.year - start_date.year)).map
        (fun k => ⟨start_date.year + k, start_date.month, start_date.day⟩))
    ∧ (∀ ws : List Date, window_starts start_date end_date = some ws →
        ws.length = end_date.year - start_date.year)
    ∧ (∀ schedule : Date → List ApiResponse,
        fetch_all_contributions schedule start_date end_date =
          fetch_windows schedule ((List.range (end_date.year - start_date.year)).map
            (fun k => ⟨start_date.year + k, start_date.month, start_date.day⟩)))
    ∧ (start_date.year = end_date.year →
        ∀ schedule : Date → List ApiResponse,
          fetch_all_contributions schedule start_date end_date = some []) := by
  have hoff : year_offsets start_date end_date =
      List.range (end_date.year - start_date.year) := by
    unfold year_offsets
    congr 1
    omega
  have hws : window_starts start_date end_date =
      some ((List.range (end_date.year - start_date.year)).map
        (fun k => ⟨start_date.year + k, start_date.month, start_date.day⟩)) := by
    unfold window_starts
    rw [hoff]
    apply traverse_dates_eq_map
    intro k hk
    rw [List.mem_range] at hk
    unfold replace_year
    rw [if_pos (hval k hk)]
  refine ⟨hws, fun ws h => ?_, fun schedule => ?_, fun hyear schedule => ?_⟩
  · rw [hws] at h
    cases h
    simp
  · simp [fetch_all_contributions, hws]
  · have h0 : end_date.year - start_date.year = 0 := by omega
    simp [fetch_all_contributions, hws, h0, fetch_windows]

/-- Witness for C3: a valid two-year range yields exactly the two window
start dates with the month and day preserved, in ascending year order. -/
theorem c3_window_count_witness :
    window_starts ⟨2019, 9, 15⟩ ⟨2021, 3, 1⟩ =
      some [⟨2019, 9, 15⟩, ⟨2020, 9, 15⟩] :=
  (c3_window_count ⟨2019, 9, 15⟩ ⟨2021, 3, 1⟩ (by decide) (by decide)).1

set_option maxRecDepth 40000 in
/-- C6: the query splices one and the same `after_clause` value directly
after each of the five `(first: 100` pagination arguments; the clause is
`, after: \"cursor\"` for a non-empty cursor and empty when the cursor is
absent, in which case no `after` text occurs anywhere in the query.  The
occurrence counts are checked on a concrete username and date. -/
theorem c6_cursor_uniform_across_subcollections :
    (∀ (username from_date : String) (cursor : Option String),
        get_contributions_query username from_date cursor =
          q_head username from_date ++ q_first ++ after_clause cursor
            ++ q_body1 ++ q_first ++ after_clause cursor
            ++ q_body2 ++ q_first ++ after_clause cursor
            ++ q_body3 ++ q_first ++ after_clause cursor
            ++ q_body4 ++ q_first ++ after_clause cursor ++ q_tail)
  ∧ after_clause none = ""
  ∧ (∀ c : String, c ≠ "" → after_clause (some c) = ", after: \"" ++ c ++ "\"")
  ∧ q_first = "(first: 100"
  ∧ count_occurrences (", after: \"ab\"").data
      (get_contributions_query "octocat" "2020-01-01" (some "ab")).data = 5
  ∧ count_occurrences "first: 100".data
      (get_contributions_query "octocat" "2020-01-01" (some "ab")).data = 5
  ∧ count_occurrences "after".data
      (get_contributions_query "octocat" "2020-01-01" none).data = 0 := by
  refine ⟨fun _ _ _ => rfl, rfl, fun c hc => by simp [after_clause, hc], rfl,
    by decide, by decide, by decide⟩

/-- Witness for C6: a concrete non-empty cursor produces the concrete
after clause. -/
theorem c6_cursor_uniform_across_subcollections_witness :
    after_clause (some "ab") = ", after: \"ab\"" :=
  c6_cursor_uniform_across_subcollections.2.2.1 "ab" (by decide)

/-- The three timestamps of the C2 fixture: a Monday with two events at
distinct times and a Saturday with one event. -/
def c2_input : List String :=
  ["2023-01-02T10:00:00Z", "2023-01-02T11:00:00Z", "2023-01-07T09:00:00Z"]

set_option maxRecDepth 40000 in
/-- C2, evaluated on the code: the per-calendar-day count of 2023-01-02 is
indeed 2 (the spec's intended grouping, and what the comment at line 216
announces), but the code groups by the full timestamp and `pivot_table`
averages with its default `mean`, so the (Monday, 2023, week 1) cell holds
1, not 2.  The Saturday entry is correctly excluded: only the two Monday
rows survive the weekday filter. -/
theorem c2_code_groups_by_timestamp_and_averages :
    spec_per_day_count c2_input 2023 1 2 = some 2
    ∧ heatmap_cell c2_input 0 2023 1 = some 1
    ∧ (1 : ℚ) ≠ 2
    ∧ filtered_rows c2_input =
        some [⟨⟨2023, 1, 2, 10, 0, 0⟩, 1, 0, 1, 2023⟩,
              ⟨⟨2023, 1, 2, 11, 0, 0⟩, 1, 0, 1, 2023⟩]
    ∧ weekday_of 2023 1 7 = 5 := by
  refine ⟨by decide, by decide, by norm_num, by decide, by decide⟩

/-- C10: the pivoted grid's row index is unconditionally replaced by the
five weekday labels, so whenever the weekday-filtered data holds fewer than
five distinct weekdays the run fails with the pandas length-mismatch error
instead of reaching the rendering step; in particular it does so on the
empty event list. -/
theorem c10_weekday_index_mismatch :
    (∀ (dates : List String) (idx : List Nat),
        pivot_index dates = some idx → idx.length < 5 →
        generate_plotly_heatmap_run dates = .error "Length mismatch")
    ∧ generate_plotly_heatmap_run [] = .error "Length mismatch" := by
  constructor
  · intro dates idx h hlt
    simp only [generate_plotly_heatmap_run, h]
    rw [if_neg (by omega)]
  · rfl

/-- Witness for C10: the empty event list (zero distinct weekdays) hits
the length mismatch. -/
theorem c10_weekday_index_mismatch_witness :
    generate_plotly_heatmap_run [] = Except.error "Length mismatch" :=
  c10_weekday_index_mismatch.1 [] [] rfl (by decide)

end ContribCounter
